import Mathlib

/-!
# go-opencl: resource lifecycle and command submission

A shallow embedding of `cl/context.go` and `cl/queue.go`.

Conventions of the embedding.

* A native handle (`C.cl_context`, `C.cl_mem`, `C.cl_event`, ...) is a `Nat`;
  `0` is the null pointer.
* A Go pointer result `*T` is an `Option T` (`none` is the nil pointer); a Go
  `error` is an `Option Error` (`none` is the nil error).
* A Go slice whose nil-ness the code tests is an `Option (List _)`: `none` is
  the nil slice, `some []` an empty non-nil slice.  A slice that is only
  indexed and measured is a `List`.
* Receivers and pointer arguments (`*Context`, `*CommandQueue`, `*MemObject`,
  `*Device`, `*Kernel`, ...) are non-nil and are passed as values; the release
  functions, which write through their pointer, return the updated object.
* Go `int` is the 64-bit signed integer: values are `Int`, and conversions to
  `C.cl_uint` and `C.size_t` reduce modulo `2^32` and `2^64`.
* The OpenCL driver is an oracle `Driver` answering every native call; each
  function of the embedding returns the native calls it issued, in order,
  together with its Go result (`none` when the Go runtime panics).
-/

namespace cl

/-- A native handle; `0` is the null pointer. -/
abbrev Handle := Nat

/-- The status code `C.cl_int`. -/
abbrev Status := Int

/-- The constant `CL_SUCCESS` of the OpenCL headers. -/
def CL_SUCCESS : Status := 0

/-- Conversion of a Go `int` to `C.cl_uint` (32-bit unsigned). -/
def cl_uint (n : Int) : Nat := (n % 2 ^ 32).toNat

/-- Conversion of a Go `int` to `C.size_t` (64-bit unsigned). -/
def size_t (n : Int) : Nat := (n % 2 ^ 64).toNat

/-- Conversion of a Go integer to a 64-bit unsigned bit field (`C.cl_mem_flags`,
`C.cl_command_queue_properties`). -/
def cl_bitfield (n : Int) : Nat := (n % 2 ^ 64).toNat

/-- Wrap-around of Go `int` arithmetic (64-bit two's complement). -/
def wrapInt (n : Int) : Int := (n + 2 ^ 63) % 2 ^ 64 - 2 ^ 63

/-- The Go type `Property` (`C.cl_context_properties`, a pointer-sized integer). -/
abbrev Property := Int

/-- Modelled from the spec: the error values are declared in a file that is not
among the sources.  `ErrUnknown` is the unknown-failure error; every other
error is derived from a driver status code. -/
inductive Error where
  | ErrUnknown
  | ofStatus (code : Status)
  deriving DecidableEq, Repr

/-- Modelled from the spec: the `Device` type is declared in a file that is not
among the sources; the code reads its field `id`, an opaque device identifier. -/
structure Device where
  id : Handle
  deriving DecidableEq, Repr

/-- The value of an `unsafe.Pointer` argument handed to the driver. -/
inductive HostPtr where
  | null
  | raw (addr : Nat)
  | bytes (data : List Nat)
  | float32s (data : List Nat)
  deriving DecidableEq, Repr

/-- The native calls of the OpenCL API that the embedded code can issue, with
their arguments.  A pointer to an array is the array itself, `none` the null
pointer.  `clFlush` belongs to the API although no embedded function issues it. -/
inductive DriverCall where
  | clReleaseContext (context : Handle)
  | clReleaseMemObject (memobj : Handle)
  | clReleaseCommandQueue (queue : Handle)
  | clCreateContext (properties : Option (List Property)) (numDevices : Nat)
      (devices : List Handle)
  | clGetSupportedImageFormats (context : Handle) (flags : Nat) (imageType : Nat)
      (numEntries : Nat)
  | clCreateCommandQueue (context : Handle) (device : Handle) (properties : Nat)
  | clCreateProgramWithSource (context : Handle) (count : Nat) (strings : List String)
  | clCreateBuffer (context : Handle) (flags : Nat) (size : Nat) (hostPtr : HostPtr)
  | clCreateFromGLRenderbuffer (context : Handle) (flags : Nat) (renderbuffer : Nat)
  | clCreateFromGLTexture (context : Handle) (flags : Nat) (target : Nat) (miplevel : Int)
      (texture : Nat)
  | clCreateUserEvent (context : Handle)
  | clFinish (queue : Handle)
  | clFlush (queue : Handle)
  | clEnqueueUnmapMemObject (queue : Handle) (memobj : Handle) (mappedPtr : Handle)
      (numEvents : Nat) (waitList : Option (List Handle))
  | clEnqueueCopyBuffer (queue : Handle) (src : Handle) (dst : Handle) (srcOffset : Nat)
      (dstOffset : Nat) (size : Nat) (numEvents : Nat) (waitList : Option (List Handle))
  | clEnqueueWriteBuffer (queue : Handle) (buffer : Handle) (blocking : Bool) (offset : Nat)
      (size : Nat) (ptr : HostPtr) (numEvents : Nat) (waitList : Option (List Handle))
  | clEnqueueReadBuffer (queue : Handle) (buffer : Handle) (blocking : Bool) (offset : Nat)
      (size : Nat) (ptr : HostPtr) (numEvents : Nat) (waitList : Option (List Handle))
  | clEnqueueNDRangeKernel (queue : Handle) (kernel : Handle) (workDim : Nat)
      (globalWorkOffset : Option (List Nat)) (globalWorkSize : Option (List Nat))
      (localWorkSize : Option (List Nat)) (numEvents : Nat) (waitList : Option (List Handle))
  | clEnqueueReadImage (queue : Handle) (image : Handle) (blocking : Bool)
      (origin : List Nat) (region : List Nat) (rowPitch : Nat) (slicePitch : Nat)
      (ptr : HostPtr) (numEvents : Nat) (waitList : Option (List Handle))
  | clEnqueueWriteImage (queue : Handle) (image : Handle) (blocking : Bool)
      (origin : List Nat) (region : List Nat) (rowPitch : Nat) (slicePitch : Nat)
      (ptr : HostPtr) (numEvents : Nat) (waitList : Option (List Handle))
  | clEnqueueTask (queue : Handle) (kernel : Handle) (numEvents : Nat)
      (waitList : Option (List Handle))
  deriving DecidableEq, Repr

/-- What the driver hands back for one native call: the status (returned, or
written through `errcode_ret`), the returned object handle, the handle written
through the `event` out-parameter, and for the image-format query the count
written through `num_image_formats` and the entries written into the caller's
array. -/
structure Response where
  status : Status
  handle : Handle
  event : Handle
  numFormats : Nat
  formats : List (Nat × Nat)
  deriving DecidableEq, Repr

/-- The driver: an arbitrary answer to every native call. -/
abbrev Driver := DriverCall → Response

/-- The outcome of running an embedded function: the native calls issued, in
order, and the Go result (`none` when the Go runtime panics). -/
structure Run (α : Type) where
  calls : List DriverCall
  result : Option α

/-- The Go struct `Context`. -/
structure Context where
  clContext : Handle
  devices : List Device
  deriving DecidableEq, Repr

/-- The Go struct `MemObject`. -/
structure MemObject where
  clMem : Handle
  size : Int
  deriving DecidableEq, Repr

/-- The Go struct `CommandQueue`. -/
structure CommandQueue where
  clQueue : Handle
  device : Device
  deriving DecidableEq, Repr

/-! ## Release -/

/-- The function `releaseContext`: the context after the call and the native
calls issued. -/
def releaseContext (c : Context) : Context × List DriverCall :=
  if c.clContext ≠ 0 then
    ({ c with clContext := 0 }, [DriverCall.clReleaseContext c.clContext])
  else (c, [])

/-- The function `releaseMemObject`. -/
def releaseMemObject (b : MemObject) : MemObject × List DriverCall :=
  if b.clMem ≠ 0 then
    ({ b with clMem := 0 }, [DriverCall.clReleaseMemObject b.clMem])
  else (b, [])

/-- The function `releaseCommandQueue`. -/
def releaseCommandQueue (q : CommandQueue) : CommandQueue × List DriverCall :=
  if q.clQueue ≠ 0 then
    ({ q with clQueue := 0 }, [DriverCall.clReleaseCommandQueue q.clQueue])
  else (q, [])

/-- The method `(*Context).Release`. -/
def Context.Release (ctx : Context) : Context × List DriverCall := releaseContext ctx

/-- The method `(*MemObject).Release`. -/
def MemObject.Release (b : MemObject) : MemObject × List DriverCall := releaseMemObject b

/-- The method `(*CommandQueue).Release`. -/
def CommandQueue.Release (q : CommandQueue) : CommandQueue × List DriverCall :=
  releaseCommandQueue q

/-- One release of an object: an explicit `Release` call, or a run of the
finalizer registered with `runtime.SetFinalizer`. -/
inductive ReleaseOp where
  | explicit
  | finalizer
  deriving DecidableEq, Repr

/-- Runs a sequence of releases on an object, collecting the native calls. -/
def runReleases {α : Type} (viaRelease viaFinalizer : α → α × List DriverCall) :
    List ReleaseOp → α → α × List DriverCall
  | [], a => (a, [])
  | op :: ops, a =>
    let r := match op with
      | ReleaseOp.explicit => viaRelease a
      | ReleaseOp.finalizer => viaFinalizer a
    let rest := runReleases viaRelease viaFinalizer ops r.1
    (rest.1, r.2 ++ rest.2)

/-- A sequence of releases of a `Context`. -/
def releasesContext : List ReleaseOp → Context → Context × List DriverCall :=
  runReleases Context.Release releaseContext

/-- A sequence of releases of a `MemObject`. -/
def releasesMemObject : List ReleaseOp → MemObject → MemObject × List DriverCall :=
  runReleases MemObject.Release releaseMemObject

/-- A sequence of releases of a `CommandQueue`. -/
def releasesCommandQueue : List ReleaseOp → CommandQueue → CommandQueue × List DriverCall :=
  runReleases CommandQueue.Release releaseCommandQueue

/-! ## Helpers and types declared outside the embedded files -/

/-- Modelled from the spec: the `Event` type is declared in a file that is not
among the sources; its attribute is the native event handle. -/
structure Event where
  clEvent : Handle
  deriving DecidableEq, Repr

/-- Modelled from the spec: the `Kernel` type is declared in a file that is not
among the sources; the code reads its field `clKernel`, the compiled kernel handle. -/
structure Kernel where
  clKernel : Handle
  deriving DecidableEq, Repr

/-- Modelled from the spec: the `Program` type is declared in a file that is not
among the sources; `CreateProgramWithSource` fills its fields `clProgram` and
`devices`. -/
structure Program where
  clProgram : Handle
  devices : List Device
  deriving DecidableEq, Repr

/-- Modelled from the spec: the `MappedMemObject` type is declared in a file that
is not among the sources; it carries the host-visible pointer, the size and the
row and slice pitch. -/
structure MappedMemObject where
  ptr : Handle
  size : Int
  rowPitch : Int
  slicePitch : Int
  deriving DecidableEq, Repr

/-- Modelled from the spec: the `ImageFormat` type is declared in a file that is
not among the sources; a (channel-order, channel-data-type) pair. -/
structure ImageFormat where
  ChannelOrder : Nat
  ChannelDataType : Nat
  deriving DecidableEq, Repr

/-- Modelled from the spec: `toError` is declared in a file that is not among the
sources.  It turns a driver status into a Go error: the nil error for
`CL_SUCCESS`, and otherwise the error derived from that status. -/
def toError (code : Status) : Option Error :=
  if code = CL_SUCCESS then none else some (Error.ofStatus code)

/-- Modelled from the spec: `newEvent` is declared in a file that is not among the
sources.  It wraps a native event handle in an owning `Event`, the way
`newMemObject` wraps a `C.cl_mem`; the reference it returns is never nil. -/
def newEvent (clEvent : Handle) : Option Event := some { clEvent := clEvent }

/-- Modelled from the spec: `buildDeviceIdList` is declared in a file that is not
among the sources.  The ordered device identifiers of a device list, used
verbatim. -/
def buildDeviceIdList (devices : List Device) : List Handle :=
  devices.map fun d => d.id

/-- Modelled from the spec: `clBool` is declared in a file that is not among the
sources.  The `blocking` flag as handed to the driver. -/
def clBool (b : Bool) : Bool := b

/-- Modelled from the spec: `sizeT3` is declared in a file that is not among the
sources.  A 3D origin or region, each coordinate converted to `C.size_t`. -/
def sizeT3 (v : Int × Int × Int) : List Nat :=
  [size_t v.1, size_t v.2.1, size_t v.2.2]

/-- The helper `eventListPtr` is declared in a file that is not among the
sources and the embedding takes it as a parameter: from a dependency list it
yields the pointer handed to the driver (`some none` the null pointer,
`some (some hs)` an array of native event handles), or `none` when it panics. -/
abbrev EventListPtr := Option (List Event) → Option (Option (List Handle))

/-- Go `len` of a slice that may be nil. -/
def sliceLen {α : Type} (xs : Option (List α)) : Int := ((xs.getD []).length : Int)

/-- The constant `maxImageFormats`. -/
def maxImageFormats : Nat := 256

/-- The constant `GL_TEXTURE_2D` of the OpenGL headers. -/
def GL_TEXTURE_2D : Nat := 0x0DE1

/-! ## context.go -/

/-- The function `newMemObject`; the reference it returns is never nil. -/
def newMemObject (mo : Handle) (size : Int) : MemObject := { clMem := mo, size := size }

/-- The function `CreateContextWithProperties`.  `&terminatedProperties[0]` and
`&deviceIds[0]` panic on an empty slice. -/
def CreateContextWithProperties (drv : Driver) (devices : List Device)
    (properties : Option (List Property)) : Run (Option Context × Option Error) :=
  let deviceIds := buildDeviceIdList devices
  let terminatedProperties := properties.getD [] ++ [(0 : Property)]
  match terminatedProperties with
  | [] => ⟨[], none⟩
  | _ :: _ =>
    match deviceIds with
    | [] => ⟨[], none⟩
    | _ :: _ =>
      let call :=
        if properties ≠ none then
          DriverCall.clCreateContext (some terminatedProperties) (cl_uint devices.length) deviceIds
        else
          DriverCall.clCreateContext none (cl_uint devices.length) deviceIds
      let r := drv call
      if r.status ≠ CL_SUCCESS then ⟨[call], some (none, toError r.status)⟩
      else if r.handle = 0 then ⟨[call], some (none, some Error.ErrUnknown)⟩
      else ⟨[call], some (some { clContext := r.handle, devices := devices }, none)⟩

/-- The function `CreateContext`. -/
def CreateContext (drv : Driver) (devices : List Device) :
    Run (Option Context × Option Error) :=
  CreateContextWithProperties drv devices none

/-- The array `formats` after the driver call: zero-initialised, with the entries
the driver wrote (at most `maxImageFormats`, the `num_entries` it was given). -/
def formatsArray (written : List (Nat × Nat)) : List (Nat × Nat) :=
  written.take maxImageFormats ++
    List.replicate (maxImageFormats - (written.take maxImageFormats).length) (0, 0)

/-- The method `(*Context).GetSupportedImageFormats`.  Slicing the 256-entry array
with `formats[:nFormats]` panics when `nFormats` exceeds its length. -/
def Context.GetSupportedImageFormats (drv : Driver) (ctx : Context) (flags : Int)
    (imageType : Int) : Run (Option (List ImageFormat) × Option Error) :=
  let call := DriverCall.clGetSupportedImageFormats ctx.clContext (cl_bitfield flags)
    (cl_uint imageType) maxImageFormats
  let r := drv call
  let formats := formatsArray r.formats
  let nFormats := r.numFormats % 2 ^ 32
  if r.status ≠ CL_SUCCESS then ⟨[call], some (none, toError r.status)⟩
  else if nFormats ≤ formats.length then
    ⟨[call], some (some ((formats.take nFormats).map fun f =>
      { ChannelOrder := f.1, ChannelDataType := f.2 }), none)⟩
  else ⟨[call], none⟩

/-- The method `(*Context).CreateCommandQueue`. -/
def Context.CreateCommandQueue (drv : Driver) (ctx : Context) (device : Device)
    (properties : Int) : Run (Option CommandQueue × Option Error) :=
  let call := DriverCall.clCreateCommandQueue ctx.clContext device.id (cl_bitfield properties)
  let r := drv call
  if r.status ≠ CL_SUCCESS then ⟨[call], some (none, toError r.status)⟩
  else if r.handle = 0 then ⟨[call], some (none, some Error.ErrUnknown)⟩
  else ⟨[call], some (some { clQueue := r.handle, device := device }, none)⟩

/-- The method `(*Context).CreateProgramWithSource`.  `&cSources[0]` panics when
there is no source string. -/
def Context.CreateProgramWithSource (drv : Driver) (ctx : Context) (sources : List String) :
    Run (Option Program × Option Error) :=
  match sources with
  | [] => ⟨[], none⟩
  | _ :: _ =>
    let call := DriverCall.clCreateProgramWithSource ctx.clContext (cl_uint sources.length) sources
    let r := drv call
    if r.status ≠ CL_SUCCESS then ⟨[call], some (none, toError r.status)⟩
    else if r.handle = 0 then ⟨[call], some (none, some Error.ErrUnknown)⟩
    else ⟨[call], some (some { clProgram := r.handle, devices := ctx.devices }, none)⟩

/-- The method `(*Context).CreateBufferUnsafe`. -/
def Context.CreateBufferUnsafe (drv : Driver) (ctx : Context) (flags : Int) (size : Int)
    (dataPtr : HostPtr) : Run (Option MemObject × Option Error) :=
  let call := DriverCall.clCreateBuffer ctx.clContext (cl_bitfield flags) (size_t size) dataPtr
  let r := drv call
  if r.status ≠ CL_SUCCESS then ⟨[call], some (none, toError r.status)⟩
  else if r.handle = 0 then ⟨[call], some (none, some Error.ErrUnknown)⟩
  else ⟨[call], some (some (newMemObject r.handle size), none)⟩

/-- The method `(*Context).CreateEmptyBuffer`. -/
def Context.CreateEmptyBuffer (drv : Driver) (ctx : Context) (flags : Int) (size : Int) :
    Run (Option MemObject × Option Error) :=
  ctx.CreateBufferUnsafe drv flags size HostPtr.null

/-- The method `(*Context).CreateBuffer`.  `&data[0]` panics on an empty slice. -/
def Context.CreateBuffer (drv : Driver) (ctx : Context) (flags : Int) (data : List Nat) :
    Run (Option MemObject × Option Error) :=
  match data with
  | [] => ⟨[], none⟩
  | _ :: _ => ctx.CreateBufferUnsafe drv flags (data.length : Int) (HostPtr.bytes data)

/-- The method `(*Context).CreateBufferFloat32`.  `&data[0]` panics on an empty
slice; `len(data)*4` is Go `int` arithmetic. -/
def Context.CreateBufferFloat32 (drv : Driver) (ctx : Context) (flags : Int)
    (data : List Nat) : Run (Option MemObject × Option Error) :=
  match data with
  | [] => ⟨[], none⟩
  | _ :: _ =>
    ctx.CreateBufferUnsafe drv flags (wrapInt ((data.length : Int) * 4)) (HostPtr.float32s data)

/-- The method `(*Context).CreateBufferFromGLRenderBuffer`. -/
def Context.CreateBufferFromGLRenderBuffer (drv : Driver) (ctx : Context) (flags : Int)
    (buffer : Nat) (size : Int) : Run (Option MemObject × Option Error) :=
  let call := DriverCall.clCreateFromGLRenderbuffer ctx.clContext (cl_bitfield flags)
    (buffer % 2 ^ 32)
  let r := drv call
  if r.status ≠ CL_SUCCESS then ⟨[call], some (none, toError r.status)⟩
  else if r.handle = 0 then ⟨[call], some (none, some Error.ErrUnknown)⟩
  else ⟨[call], some (some (newMemObject r.handle size), none)⟩

/-- The method `(*Context).CreateBufferFromGLTexture2D`. -/
def Context.CreateBufferFromGLTexture2D (drv : Driver) (ctx : Context) (flags : Int)
    (texture : Nat) (size : Int) : Run (Option MemObject × Option Error) :=
  let call := DriverCall.clCreateFromGLTexture ctx.clContext (cl_bitfield flags)
    GL_TEXTURE_2D 0 (texture % 2 ^ 32)
  let r := drv call
  if r.status ≠ CL_SUCCESS then ⟨[call], some (none, toError r.status)⟩
  else if r.handle = 0 then ⟨[call], some (none, some Error.ErrUnknown)⟩
  else ⟨[call], some (some (newMemObject r.handle size), none)⟩

/-- The method `(*Context).CreateUserEvent`.  There is no null-handle test
between the status test and `newEvent`. -/
def Context.CreateUserEvent (drv : Driver) (ctx : Context) :
    Run (Option Event × Option Error) :=
  let call := DriverCall.clCreateUserEvent ctx.clContext
  let r := drv call
  if r.status ≠ CL_SUCCESS then ⟨[call], some (none, toError r.status)⟩
  else ⟨[call], some (newEvent r.handle, none)⟩

/-! ## queue.go -/

/-- The method `(*CommandQueue).Finish`. -/
def CommandQueue.Finish (drv : Driver) (q : CommandQueue) : Run (Option Error) :=
  let call := DriverCall.clFinish q.clQueue
  ⟨[call], some (toError (drv call).status)⟩

/-- The method `(*CommandQueue).Flush`; its body calls `C.clFinish`. -/
def CommandQueue.Flush (drv : Driver) (q : CommandQueue) : Run (Option Error) :=
  let call := DriverCall.clFinish q.clQueue
  ⟨[call], some (toError (drv call).status)⟩

/-- The method `(*CommandQueue).EnqueueUnmapMemObject`. -/
def CommandQueue.EnqueueUnmapMemObject (eventListPtr : EventListPtr) (drv : Driver)
    (q : CommandQueue) (buffer : MemObject) (mappedObj : MappedMemObject)
    (eventWaitList : Option (List Event)) : Run (Option Event × Option Error) :=
  match eventListPtr eventWaitList with
  | none => ⟨[], none⟩
  | some waitPtr =>
    let call := DriverCall.clEnqueueUnmapMemObject q.clQueue buffer.clMem mappedObj.ptr
      (cl_uint (sliceLen eventWaitList)) waitPtr
    let r := drv call
    if r.status ≠ CL_SUCCESS then ⟨[call], some (none, toError r.status)⟩
    else ⟨[call], some (newEvent r.event, none)⟩

/-- The method `(*CommandQueue).EnqueueCopyBuffer`. -/
def CommandQueue.EnqueueCopyBuffer (eventListPtr : EventListPtr) (drv : Driver)
    (q : CommandQueue) (srcBuffer dstBuffer : MemObject) (srcOffset dstOffset byteCount : Int)
    (eventWaitList : Option (List Event)) : Run (Option Event × Option Error) :=
  match eventListPtr eventWaitList with
  | none => ⟨[], none⟩
  | some waitPtr =>
    let call := DriverCall.clEnqueueCopyBuffer q.clQueue srcBuffer.clMem dstBuffer.clMem
      (size_t srcOffset) (size_t dstOffset) (size_t byteCount)
      (cl_uint (sliceLen eventWaitList)) waitPtr
    let r := drv call
    let err := toError r.status
    ⟨[call], some (newEvent r.event, err)⟩

/-- The method `(*CommandQueue).EnqueueWriteBuffer`. -/
def CommandQueue.EnqueueWriteBuffer (eventListPtr : EventListPtr) (drv : Driver)
    (q : CommandQueue) (buffer : MemObject) (blocking : Bool) (offset dataSize : Int)
    (dataPtr : HostPtr) (eventWaitList : Option (List Event)) :
    Run (Option Event × Option Error) :=
  match eventListPtr eventWaitList with
  | none => ⟨[], none⟩
  | some waitPtr =>
    let call := DriverCall.clEnqueueWriteBuffer q.clQueue buffer.clMem (clBool blocking)
      (size_t offset) (size_t dataSize) dataPtr (cl_uint (sliceLen eventWaitList)) waitPtr
    let r := drv call
    let err := toError r.status
    ⟨[call], some (newEvent r.event, err)⟩

/-- The method `(*CommandQueue).EnqueueWriteBufferFloat32`.  `&data[0]` panics on
an empty slice; `unsafe.Sizeof(data[0])` is 4. -/
def CommandQueue.EnqueueWriteBufferFloat32 (eventListPtr : EventListPtr) (drv : Driver)
    (q : CommandQueue) (buffer : MemObject) (blocking : Bool) (offset : Int)
    (data : List Nat) (eventWaitList : Option (List Event)) :
    Run (Option Event × Option Error) :=
  match data with
  | [] => ⟨[], none⟩
  | _ :: _ =>
    let dataPtr := HostPtr.float32s data
    let dataSize := wrapInt (4 * (data.length : Int))
    q.EnqueueWriteBuffer eventListPtr drv buffer blocking offset dataSize dataPtr eventWaitList

/-- The method `(*CommandQueue).EnqueueReadBuffer`. -/
def CommandQueue.EnqueueReadBuffer (eventListPtr : EventListPtr) (drv : Driver)
    (q : CommandQueue) (buffer : MemObject) (blocking : Bool) (offset dataSize : Int)
    (dataPtr : HostPtr) (eventWaitList : Option (List Event)) :
    Run (Option Event × Option Error) :=
  match eventListPtr eventWaitList with
  | none => ⟨[], none⟩
  | some waitPtr =>
    let call := DriverCall.clEnqueueReadBuffer q.clQueue buffer.clMem (clBool blocking)
      (size_t offset) (size_t dataSize) dataPtr (cl_uint (sliceLen eventWaitList)) waitPtr
    let r := drv call
    let err := toError r.status
    ⟨[call], some (newEvent r.event, err)⟩

/-- The method `(*CommandQueue).EnqueueReadBufferFloat32`.  `&data[0]` panics on
an empty slice; `unsafe.Sizeof(data[0])` is 4. -/
def CommandQueue.EnqueueReadBufferFloat32 (eventListPtr : EventListPtr) (drv : Driver)
    (q : CommandQueue) (buffer : MemObject) (blocking : Bool) (offset : Int)
    (data : List Nat) (eventWaitList : Option (List Event)) :
    Run (Option Event × Option Error) :=
  match data with
  | [] => ⟨[], none⟩
  | _ :: _ =>
    let dataPtr := HostPtr.float32s data
    let dataSize := wrapInt (4 * (data.length : Int))
    q.EnqueueReadBuffer eventListPtr drv buffer blocking offset dataSize dataPtr eventWaitList

/-- The block that `EnqueueNDRangeKernel` repeats for each of its three lists:
a nil list leaves the pointer null; otherwise every element is converted to
`C.size_t` and the pointer is `&list[0]`, which panics (`none`) on an empty
list. -/
def workListPtr : Option (List Int) → Option (Option (List Nat))
  | none => some none
  | some [] => none
  | some (x :: xs) => some (some ((x :: xs).map size_t))

/-- The method `(*CommandQueue).EnqueueNDRangeKernel`.  The lengths of the three
lists are not compared. -/
def CommandQueue.EnqueueNDRangeKernel (eventListPtr : EventListPtr) (drv : Driver)
    (q : CommandQueue) (kernel : Kernel)
    (globalWorkOffset globalWorkSize localWorkSize : Option (List Int))
    (eventWaitList : Option (List Event)) : Run (Option Event × Option Error) :=
  let workDim := sliceLen globalWorkSize
  match workListPtr globalWorkOffset with
  | none => ⟨[], none⟩
  | some globalWorkOffsetPtr =>
    match workListPtr globalWorkSize with
    | none => ⟨[], none⟩
    | some globalWorkSizePtr =>
      match workListPtr localWorkSize with
      | none => ⟨[], none⟩
      | some localWorkSizePtr =>
        match eventListPtr eventWaitList with
        | none => ⟨[], none⟩
        | some waitPtr =>
          let call := DriverCall.clEnqueueNDRangeKernel q.clQueue kernel.clKernel
            (cl_uint workDim) globalWorkOffsetPtr globalWorkSizePtr localWorkSizePtr
            (cl_uint (sliceLen eventWaitList)) waitPtr
          let r := drv call
          let err := toError r.status
          ⟨[call], some (newEvent r.event, err)⟩

/-- The method `(*CommandQueue).EnqueueReadImage`.  `&data[0]` panics on an empty
slice. -/
def CommandQueue.EnqueueReadImage (eventListPtr : EventListPtr) (drv : Driver)
    (q : CommandQueue) (image : MemObject) (blocking : Bool) (origin region : Int × Int × Int)
    (rowPitch slicePitch : Int) (data : List Nat) (eventWaitList : Option (List Event)) :
    Run (Option Event × Option Error) :=
  let cOrigin := sizeT3 origin
  let cRegion := sizeT3 region
  match data with
  | [] => ⟨[], none⟩
  | _ :: _ =>
    match eventListPtr eventWaitList with
    | none => ⟨[], none⟩
    | some waitPtr =>
      let call := DriverCall.clEnqueueReadImage q.clQueue image.clMem (clBool blocking)
        cOrigin cRegion (size_t rowPitch) (size_t slicePitch) (HostPtr.bytes data)
        (cl_uint (sliceLen eventWaitList)) waitPtr
      let r := drv call
      let err := toError r.status
      ⟨[call], some (newEvent r.event, err)⟩

/-- The method `(*CommandQueue).EnqueueWriteImage`.  `&data[0]` panics on an empty
slice. -/
def CommandQueue.EnqueueWriteImage (eventListPtr : EventListPtr) (drv : Driver)
    (q : CommandQueue) (image : MemObject) (blocking : Bool) (origin region : Int × Int × Int)
    (rowPitch slicePitch : Int) (data : List Nat) (eventWaitList : Option (List Event)) :
    Run (Option Event × Option Error) :=
  let cOrigin := sizeT3 origin
  let cRegion := sizeT3 region
  match data with
  | [] => ⟨[], none⟩
  | _ :: _ =>
    match eventListPtr eventWaitList with
    | none => ⟨[], none⟩
    | some waitPtr =>
      let call := DriverCall.clEnqueueWriteImage q.clQueue image.clMem (clBool blocking)
        cOrigin cRegion (size_t rowPitch) (size_t slicePitch) (HostPtr.bytes data)
        (cl_uint (sliceLen eventWaitList)) waitPtr
      let r := drv call
      let err := toError r.status
      ⟨[call], some (newEvent r.event, err)⟩

/-- The method `(*CommandQueue).EnqueueTask`. -/
def CommandQueue.EnqueueTask (eventListPtr : EventListPtr) (drv : Driver)
    (q : CommandQueue) (kernel : Kernel) (eventWaitList : Option (List Event)) :
    Run (Option Event × Option Error) :=
  match eventListPtr eventWaitList with
  | none => ⟨[], none⟩
  | some waitPtr =>
    let call := DriverCall.clEnqueueTask q.clQueue kernel.clKernel
      (cl_uint (sliceLen eventWaitList)) waitPtr
    let r := drv call
    let err := toError r.status
    ⟨[call], some (newEvent r.event, err)⟩

/-! ## Concrete drivers used at concrete inputs -/

/-- A driver that answers every call with success, the object handle 7 and the
event handle 9. -/
def okDriver : Driver := fun _ =>
  { status := CL_SUCCESS, handle := 7, event := 9, numFormats := 0, formats := [] }

/-- A driver that reports success on every call but hands back null handles. -/
def nullHandleDriver : Driver := fun _ =>
  { status := CL_SUCCESS, handle := 0, event := 0, numFormats := 0, formats := [] }

/-- A driver that rejects every call with the status `-5` (`CL_OUT_OF_RESOURCES`)
and writes no handle. -/
def failDriver : Driver := fun _ =>
  { status := -5, handle := 0, event := 0, numFormats := 0, formats := [] }

/-- A driver that rejects every call with the status `-5` after writing the
event handle 9, the handle `okDriver` writes on success. -/
def failDriverWithEvent : Driver := fun _ =>
  { status := -5, handle := 0, event := 9, numFormats := 0, formats := [] }

/-- A driver of a device with 257 supported image formats: it fills the 256
entries it is given room for and reports the count 257. -/
def manyFormatsDriver : Driver := fun _ =>
  { status := CL_SUCCESS, handle := 0, event := 0, numFormats := 257,
    formats := List.replicate 256 (0x10B5, 0x10DE) }

/-- A driver of a device with two supported image formats. -/
def twoFormatsDriver : Driver := fun _ =>
  { status := CL_SUCCESS, handle := 0, event := 0, numFormats := 2,
    formats := [(0x10B5, 0x10DE), (0x10B6, 0x10DA)] }

/-- An instance of the helper `eventListPtr` that never panics: the null pointer
for a nil list, the native handles of the events otherwise. -/
def eventHandles : EventListPtr := fun el =>
  some (el.map fun es => es.map fun e => e.clEvent)

/-! ## Release is idempotent -/

/-- Releases of an object on which both release paths are no-ops do nothing. -/
theorem runReleases_fixed {α : Type} (f g : α → α × List DriverCall) (a : α)
    (hf : f a = (a, [])) (hg : g a = (a, [])) (ops : List ReleaseOp) :
    runReleases f g ops a = (a, []) := by
  induction ops with
  | nil => rfl
  | cons op ops ih => cases op <;> simp [runReleases, hf, hg, ih]

/-- A released context has a null handle and releasing it again is a no-op. -/
theorem releaseContext_released (c : Context) :
    (releaseContext c).1.clContext = 0 ∧
      releaseContext (releaseContext c).1 = ((releaseContext c).1, []) := by
  unfold releaseContext
  by_cases h : c.clContext = 0 <;> simp [h]

/-- A released memory object has a null handle and releasing it again is a no-op. -/
theorem releaseMemObject_released (b : MemObject) :
    (releaseMemObject b).1.clMem = 0 ∧
      releaseMemObject (releaseMemObject b).1 = ((releaseMemObject b).1, []) := by
  unfold releaseMemObject
  by_cases h : b.clMem = 0 <;> simp [h]

/-- A released command queue has a null handle and releasing it again is a no-op. -/
theorem releaseCommandQueue_released (q : CommandQueue) :
    (releaseCommandQueue q).1.clQueue = 0 ∧
      releaseCommandQueue (releaseCommandQueue q).1 = ((releaseCommandQueue q).1, []) := by
  unfold releaseCommandQueue
  by_cases h : q.clQueue = 0 <;> simp [h]

/-- The native calls of a sequence of releases of a context. -/
theorem releasesContext_calls (c : Context) (ops : List ReleaseOp) :
    (releasesContext ops c).2 =
      if c.clContext ≠ 0 ∧ ops ≠ [] then [DriverCall.clReleaseContext c.clContext] else [] := by
  cases ops with
  | nil => simp [releasesContext, runReleases]
  | cons op ops =>
    have h2 := (releaseContext_released c).2
    have hfix := runReleases_fixed Context.Release releaseContext (releaseContext c).1 h2 h2 ops
    have hstep : (releasesContext (op :: ops) c).2 = (releaseContext c).2 := by
      cases op <;> simp [releasesContext, runReleases, Context.Release, hfix]
    rw [hstep]
    unfold releaseContext
    by_cases h : c.clContext = 0 <;> simp [h]

/-- The native calls of a sequence of releases of a memory object. -/
theorem releasesMemObject_calls (b : MemObject) (ops : List ReleaseOp) :
    (releasesMemObject ops b).2 =
      if b.clMem ≠ 0 ∧ ops ≠ [] then [DriverCall.clReleaseMemObject b.clMem] else [] := by
  cases ops with
  | nil => simp [releasesMemObject, runReleases]
  | cons op ops =>
    have h2 := (releaseMemObject_released b).2
    have hfix :=
      runReleases_fixed MemObject.Release releaseMemObject (releaseMemObject b).1 h2 h2 ops
    have hstep : (releasesMemObject (op :: ops) b).2 = (releaseMemObject b).2 := by
      cases op <;> simp [releasesMemObject, runReleases, MemObject.Release, hfix]
    rw [hstep]
    unfold releaseMemObject
    by_cases h : b.clMem = 0 <;> simp [h]

/-- The native calls of a sequence of releases of a command queue. -/
theorem releasesCommandQueue_calls (q : CommandQueue) (ops : List ReleaseOp) :
    (releasesCommandQueue ops q).2 =
      if q.clQueue ≠ 0 ∧ ops ≠ [] then [DriverCall.clReleaseCommandQueue q.clQueue]
      else [] := by
  cases ops with
  | nil => simp [releasesCommandQueue, runReleases]
  | cons op ops =>
    have h2 := (releaseCommandQueue_released q).2
    have hfix := runReleases_fixed CommandQueue.Release releaseCommandQueue
      (releaseCommandQueue q).1 h2 h2 ops
    have hstep : (releasesCommandQueue (op :: ops) q).2 = (releaseCommandQueue q).2 := by
      cases op <;> simp [releasesCommandQueue, runReleases, CommandQueue.Release, hfix]
    rw [hstep]
    unfold releaseCommandQueue
    by_cases h : q.clQueue = 0 <;> simp [h]

/-- C1: for every Context, MemObject and CommandQueue, live or released, and
every sequence of releases (explicit `Release` calls and finalizer runs): after
one release the native handle is null; any further releases of the released
object issue no native call and leave it unchanged; and the native calls of the
whole sequence are exactly one release call on the original handle when that
handle is non-null and the sequence is non-empty, and none otherwise, hence at
most one call. -/
theorem release_idempotent :
    (∀ (c : Context) (ops : List ReleaseOp),
      (c.Release).1.clContext = 0 ∧ (releaseContext c).1.clContext = 0 ∧
      releasesContext ops (c.Release).1 = ((c.Release).1, []) ∧
      (releasesContext ops c).2 =
        (if c.clContext ≠ 0 ∧ ops ≠ [] then [DriverCall.clReleaseContext c.clContext]
         else []) ∧
      (releasesContext ops c).2.length ≤ 1) ∧
    (∀ (b : MemObject) (ops : List ReleaseOp),
      (b.Release).1.clMem = 0 ∧ (releaseMemObject b).1.clMem = 0 ∧
      releasesMemObject ops (b.Release).1 = ((b.Release).1, []) ∧
      (releasesMemObject ops b).2 =
        (if b.clMem ≠ 0 ∧ ops ≠ [] then [DriverCall.clReleaseMemObject b.clMem]
         else []) ∧
      (releasesMemObject ops b).2.length ≤ 1) ∧
    (∀ (q : CommandQueue) (ops : List ReleaseOp),
      (q.Release).1.clQueue = 0 ∧ (releaseCommandQueue q).1.clQueue = 0 ∧
      releasesCommandQueue ops (q.Release).1 = ((q.Release).1, []) ∧
      (releasesCommandQueue ops q).2 =
        (if q.clQueue ≠ 0 ∧ ops ≠ [] then [DriverCall.clReleaseCommandQueue q.clQueue]
         else []) ∧
      (releasesCommandQueue ops q).2.length ≤ 1) := by
  refine ⟨fun c ops => ?_, fun b ops => ?_, fun q ops => ?_⟩
  · have h := releaseContext_released c
    refine ⟨h.1, h.1, ?_, releasesContext_calls c ops, ?_⟩
    · exact runReleases_fixed Context.Release releaseContext _ h.2 h.2 ops
    · rw [releasesContext_calls]; split <;> simp
  · have h := releaseMemObject_released b
    refine ⟨h.1, h.1, ?_, releasesMemObject_calls b ops, ?_⟩
    · exact runReleases_fixed MemObject.Release releaseMemObject _ h.2 h.2 ops
    · rw [releasesMemObject_calls]; split <;> simp
  · have h := releaseCommandQueue_released q
    refine ⟨h.1, h.1, ?_, releasesCommandQueue_calls q ops, ?_⟩
    · exact runReleases_fixed CommandQueue.Release releaseCommandQueue _ h.2 h.2 ops
    · rw [releasesCommandQueue_calls]; split <;> simp

/-! ## Context creation -/

/-- The native call issued by `CreateContextWithProperties` on a non-empty
device list. -/
theorem CreateContextWithProperties_calls (drv : Driver) (devices : List Device)
    (properties : Option (List Property)) (hdev : devices ≠ []) :
    (CreateContextWithProperties drv devices properties).calls =
      [DriverCall.clCreateContext (properties.map fun ps => ps ++ [0])
        (cl_uint devices.length) (buildDeviceIdList devices)] := by
  obtain ⟨d, ds, rfl⟩ := List.exists_cons_of_ne_nil hdev
  cases properties with
  | none =>
    simp only [CreateContextWithProperties, buildDeviceIdList, List.map_cons, Option.getD_none,
      List.nil_append]
    split_ifs <;> simp_all
  | some ps =>
    cases ps with
    | nil =>
      simp only [CreateContextWithProperties, buildDeviceIdList, List.map_cons,
        Option.getD_some, List.nil_append]
      split_ifs <;> simp_all
    | cons x xs =>
      simp only [CreateContextWithProperties, buildDeviceIdList, List.map_cons,
        Option.getD_some, List.cons_append]
      split_ifs <;> simp_all

/-- The Go result of `CreateContextWithProperties` on a non-empty device list,
as a function of the driver's answer to the native call. -/
theorem CreateContextWithProperties_result (drv : Driver) (devices : List Device)
    (properties : Option (List Property)) (hdev : devices ≠ []) :
    (CreateContextWithProperties drv devices properties).result =
      let r := drv (DriverCall.clCreateContext (properties.map fun ps => ps ++ [0])
        (cl_uint devices.length) (buildDeviceIdList devices))
      some (if r.status ≠ CL_SUCCESS then (none, toError r.status)
        else if r.handle = 0 then (none, some Error.ErrUnknown)
        else (some { clContext := r.handle, devices := devices }, none)) := by
  obtain ⟨d, ds, rfl⟩ := List.exists_cons_of_ne_nil hdev
  cases properties with
  | none =>
    simp only [CreateContextWithProperties, buildDeviceIdList, List.map_cons, Option.getD_none,
      List.nil_append]
    split_ifs <;> simp_all
  | some ps =>
    cases ps with
    | nil =>
      simp only [CreateContextWithProperties, buildDeviceIdList, List.map_cons,
        Option.getD_some, List.nil_append]
      split_ifs <;> simp_all
    | cons x xs =>
      simp only [CreateContextWithProperties, buildDeviceIdList, List.map_cons,
        Option.getD_some, List.cons_append]
      split_ifs <;> simp_all

/-- C2: on a non-empty device list, whatever the driver answers to the
context-creation call, `CreateContextWithProperties` returns exactly one of
three outcomes: (a) on a non-success status a nil Context and the (non-nil)
error derived from that status; (b) on a success status with a null handle a
nil Context and `ErrUnknown`; (c) otherwise a nil error and a Context whose
handle is the driver's non-null handle and whose device list is the input
list.  `CreateContext` is the same call without properties. -/
theorem CreateContextWithProperties_outcomes (drv : Driver) (devices : List Device)
    (properties : Option (List Property)) (hdev : devices ≠ []) :
    (let r := drv (DriverCall.clCreateContext (properties.map fun ps => ps ++ [0])
        (cl_uint devices.length) (buildDeviceIdList devices))
     let out := (CreateContextWithProperties drv devices properties).result
     (r.status ≠ CL_SUCCESS →
        out = some (none, toError r.status) ∧ toError r.status ≠ none) ∧
     (r.status = CL_SUCCESS → r.handle = 0 → out = some (none, some Error.ErrUnknown)) ∧
     (r.status = CL_SUCCESS → r.handle ≠ 0 →
        out = some (some { clContext := r.handle, devices := devices }, none))) ∧
    (let r := drv (DriverCall.clCreateContext none (cl_uint devices.length)
        (buildDeviceIdList devices))
     let out := (CreateContext drv devices).result
     (r.status ≠ CL_SUCCESS →
        out = some (none, toError r.status) ∧ toError r.status ≠ none) ∧
     (r.status = CL_SUCCESS → r.handle = 0 → out = some (none, some Error.ErrUnknown)) ∧
     (r.status = CL_SUCCESS → r.handle ≠ 0 →
        out = some (some { clContext := r.handle, devices := devices }, none))) := by
  have key : ∀ properties : Option (List Property),
      (let r := drv (DriverCall.clCreateContext (properties.map fun ps => ps ++ [0])
          (cl_uint devices.length) (buildDeviceIdList devices))
       let out := (CreateContextWithProperties drv devices properties).result
       (r.status ≠ CL_SUCCESS →
          out = some (none, toError r.status) ∧ toError r.status ≠ none) ∧
       (r.status = CL_SUCCESS → r.handle = 0 → out = some (none, some Error.ErrUnknown)) ∧
       (r.status = CL_SUCCESS → r.handle ≠ 0 →
          out = some (some { clContext := r.handle, devices := devices }, none))) := by
    intro properties
    have h := CreateContextWithProperties_result drv devices properties hdev
    simp only at h ⊢
    rw [h]
    refine ⟨fun hs => ?_, fun hs hh => ?_, fun hs hh => ?_⟩
    · simp [hs, toError]
    · simp [hs, hh]
    · simp [hs, hh]
  exact ⟨key properties, key none⟩

/-- Witness of C2: one device, the interop-style property list `[1, 2]`. -/
theorem CreateContextWithProperties_outcomes_witness :
    ([Device.mk 3] ≠ []) ∧
    (CreateContextWithProperties okDriver [Device.mk 3] (some [1, 2])).result =
      some (some { clContext := 7, devices := [Device.mk 3] }, none) :=
  ⟨by decide,
    ((CreateContextWithProperties_outcomes okDriver [Device.mk 3] (some [1, 2])
      (by decide)).1).2.2 rfl (by decide)⟩

/-- C10, as amended: on a non-empty list of fewer than `2^32` devices, and for
every property list, `CreateContextWithProperties` reaches the driver call and
returns without a runtime failure; the driver receives the supplied properties
in order followed by one terminating zero when a list is supplied and the null
pointer when none is, the device count `len(devices)`, and the device
identifiers in order. -/
theorem CreateContextWithProperties_driver_arguments (drv : Driver) (devices : List Device)
    (properties : Option (List Property)) (hdev : devices ≠ [])
    (hlen : devices.length < 2 ^ 32) :
    (CreateContextWithProperties drv devices properties).calls =
      [DriverCall.clCreateContext (properties.map fun ps => ps ++ [0])
        devices.length (devices.map fun d => d.id)] ∧
    (CreateContextWithProperties drv devices properties).result ≠ none := by
  constructor
  · rw [CreateContextWithProperties_calls drv devices properties hdev]
    have hc : cl_uint devices.length = devices.length := by
      unfold cl_uint
      have h0 : ((devices.length : Int)) % 2 ^ 32 = (devices.length : Int) :=
        Int.emod_eq_of_lt (by positivity) (by exact_mod_cast hlen)
      rw [h0]; simp
    rw [hc]; rfl
  · rw [CreateContextWithProperties_result drv devices properties hdev]
    simp

/-- Witness of the amended C10: two devices and the property list `[1, 2]`. -/
theorem CreateContextWithProperties_driver_arguments_witness :
    ([Device.mk 3, Device.mk 4] ≠ []) ∧ ([Device.mk 3, Device.mk 4].length < 2 ^ 32) ∧
    (CreateContextWithProperties okDriver [Device.mk 3, Device.mk 4] (some [1, 2])).calls =
      [DriverCall.clCreateContext (some [1, 2, 0]) 2 [3, 4]] :=
  ⟨by decide, by decide,
    (CreateContextWithProperties_driver_arguments okDriver [Device.mk 3, Device.mk 4]
      (some [1, 2]) (by decide) (by decide)).1⟩

/-- The native call issued by `CreateContextWithProperties` on `n + 1` copies of
one device. -/
theorem CreateContextWithProperties_calls_replicate (drv : Driver) (n : Nat) (d : Device)
    (properties : Option (List Property)) :
    (CreateContextWithProperties drv (List.replicate (n + 1) d) properties).calls =
      [DriverCall.clCreateContext (properties.map fun ps => ps ++ [0])
        (cl_uint ((n + 1 : Nat) : Int)) (List.replicate (n + 1) d.id)] := by
  have hne : List.replicate (n + 1) d ≠ [] := by
    rw [List.replicate_succ]; exact List.cons_ne_nil _ _
  rw [CreateContextWithProperties_calls drv _ properties hne, List.length_replicate,
    buildDeviceIdList, List.map_replicate]

/-- Counterexample to C10 as stated: with `2^32 = 4294967296` devices the device
count handed to the driver is `0`, not `len(devices)`, because the count is
converted to the 32-bit `C.cl_uint`. -/
theorem CreateContextWithProperties_count_truncated :
    (List.replicate (4294967295 + 1) (Device.mk 1)).length = 4294967296 ∧
    (CreateContextWithProperties okDriver (List.replicate (4294967295 + 1) (Device.mk 1))
        none).calls =
      [DriverCall.clCreateContext none 0 (List.replicate (4294967295 + 1) 1)] := by
  refine ⟨List.length_replicate _ _, ?_⟩
  rw [CreateContextWithProperties_calls_replicate okDriver 4294967295 (Device.mk 1) none]
  have hc : cl_uint ((4294967295 + 1 : Nat) : Int) = 0 := by
    unfold cl_uint; norm_num
  rw [hc]; rfl

/-! ## Buffers -/

/-- The native call issued by `CreateBufferUnsafe`. -/
theorem CreateBufferUnsafe_calls (drv : Driver) (ctx : Context) (flags size : Int)
    (dataPtr : HostPtr) :
    (ctx.CreateBufferUnsafe drv flags size dataPtr).calls =
      [DriverCall.clCreateBuffer ctx.clContext (cl_bitfield flags) (size_t size) dataPtr] := by
  unfold Context.CreateBufferUnsafe
  simp only
  split_ifs <;> rfl

/-- A successful `CreateBufferUnsafe` records the size it was given and wraps a
non-null handle. -/
theorem CreateBufferUnsafe_success (drv : Driver) (ctx : Context) (flags size : Int)
    (dataPtr : HostPtr) (m : MemObject)
    (h : (ctx.CreateBufferUnsafe drv flags size dataPtr).result = some (some m, none)) :
    m.size = size ∧ m.clMem ≠ 0 := by
  unfold Context.CreateBufferUnsafe at h
  simp only at h
  split_ifs at h with h1 h2
  · simp at h
  · simp at h
  · simp only [Option.some.injEq, Prod.mk.injEq, and_true] at h
    subst h
    exact ⟨rfl, h2⟩

/-- `C.size_t` on a non-negative Go `int`. -/
theorem size_t_of_nonneg (n : Int) (h0 : 0 ≤ n) (h1 : n < 2 ^ 63) : size_t n = n.toNat := by
  unfold size_t
  have h : n % 2 ^ 64 = n := Int.emod_eq_of_lt h0 (by omega)
  rw [h]

/-- `C.size_t` on a length. -/
theorem size_t_natCast (n : Nat) (h1 : (n : Int) < 2 ^ 63) : size_t (n : Int) = n := by
  rw [size_t_of_nonneg (n : Int) (Int.natCast_nonneg n) h1]
  exact Int.toNat_natCast n

/-- Go `int` multiplication of a length by four, when it does not overflow. -/
theorem wrapInt_four_mul (n : Nat) (h1 : (4 * n : Int) < 2 ^ 63) :
    wrapInt ((n : Int) * 4) = ((4 * n : Nat) : Int) := by
  unfold wrapInt
  have h0 : (0 : Int) ≤ (n : Int) := Int.natCast_nonneg n
  have h : ((n : Int) * 4 + 2 ^ 63) % 2 ^ 64 = (n : Int) * 4 + 2 ^ 63 :=
    Int.emod_eq_of_lt (by omega) (by omega)
  rw [h]
  push_cast
  ring

/-- C9, as amended: for every successful buffer creation whose size is a
non-negative Go `int`, the byte size requested from the driver and the size
recorded on the returned MemObject are equal and are: the given size for
`CreateEmptyBuffer` (with a null host pointer), `len(data)` for `CreateBuffer`
on a non-empty byte region, and `4*len(data)` for `CreateBufferFloat32` on a
non-empty float32 region. -/
theorem buffer_sizes (drv : Driver) (ctx : Context) (flags : Int) :
    (∀ (size : Int) (m : MemObject), 0 ≤ size → size < 2 ^ 63 →
      (ctx.CreateEmptyBuffer drv flags size).result = some (some m, none) →
      (ctx.CreateEmptyBuffer drv flags size).calls =
        [DriverCall.clCreateBuffer ctx.clContext (cl_bitfield flags) size.toNat HostPtr.null] ∧
      m.size = size) ∧
    (∀ (data : List Nat) (m : MemObject), data ≠ [] → (data.length : Int) < 2 ^ 63 →
      (ctx.CreateBuffer drv flags data).result = some (some m, none) →
      (ctx.CreateBuffer drv flags data).calls =
        [DriverCall.clCreateBuffer ctx.clContext (cl_bitfield flags) data.length
          (HostPtr.bytes data)] ∧
      m.size = (data.length : Int)) ∧
    (∀ (data : List Nat) (m : MemObject), data ≠ [] → (4 * data.length : Int) < 2 ^ 63 →
      (ctx.CreateBufferFloat32 drv flags data).result = some (some m, none) →
      (ctx.CreateBufferFloat32 drv flags data).calls =
        [DriverCall.clCreateBuffer ctx.clContext (cl_bitfield flags) (4 * data.length)
          (HostPtr.float32s data)] ∧
      m.size = ((4 * data.length : Nat) : Int)) := by
  refine ⟨fun size m h0 h1 hres => ?_, fun data m hne hlen hres => ?_,
    fun data m hne hlen hres => ?_⟩
  · unfold Context.CreateEmptyBuffer at hres ⊢
    refine ⟨?_, (CreateBufferUnsafe_success drv ctx flags size _ m hres).1⟩
    rw [CreateBufferUnsafe_calls, size_t_of_nonneg size h0 h1]
  · obtain ⟨x, xs, rfl⟩ := List.exists_cons_of_ne_nil hne
    generalize hn : (x :: xs).length = n at hlen
    simp only [Context.CreateBuffer, hn] at hres ⊢
    refine ⟨?_, (CreateBufferUnsafe_success drv ctx flags _ _ m hres).1⟩
    rw [CreateBufferUnsafe_calls, size_t_natCast n hlen]
  · obtain ⟨x, xs, rfl⟩ := List.exists_cons_of_ne_nil hne
    generalize hn : (x :: xs).length = n at hlen
    simp only [Context.CreateBufferFloat32, hn] at hres ⊢
    rw [wrapInt_four_mul n hlen] at hres ⊢
    refine ⟨?_, (CreateBufferUnsafe_success drv ctx flags _ _ m hres).1⟩
    rw [CreateBufferUnsafe_calls, size_t_natCast (4 * n) (by push_cast; exact hlen)]

/-- Witness of the amended C9: an empty buffer of 16 bytes on a driver that
succeeds; the driver is asked for 16 bytes and the MemObject records 16. -/
theorem buffer_sizes_witness :
    (0 : Int) ≤ 16 ∧ (16 : Int) < 2 ^ 63 ∧
    ((Context.mk 1 [Device.mk 3]).CreateEmptyBuffer okDriver 1 16).result =
      some (some { clMem := 7, size := 16 }, none) ∧
    ((Context.mk 1 [Device.mk 3]).CreateEmptyBuffer okDriver 1 16).calls =
      [DriverCall.clCreateBuffer 1 1 16 HostPtr.null] ∧
    (MemObject.mk 7 16).size = 16 :=
  ⟨by decide, by decide, rfl,
    (buffer_sizes okDriver (Context.mk 1 [Device.mk 3]) 1).1 16 (MemObject.mk 7 16)
      (by decide) (by decide) rfl⟩

/-- Counterexample to C9 as stated: `CreateEmptyBuffer` with the size `-1` on a
driver that reports success asks the driver for `2^64 - 1` bytes and records
the size `-1` on the MemObject. -/
theorem CreateEmptyBuffer_negative_size :
    ((Context.mk 1 [Device.mk 3]).CreateEmptyBuffer okDriver 1 (-1)).calls =
      [DriverCall.clCreateBuffer 1 1 18446744073709551615 HostPtr.null] ∧
    ((Context.mk 1 [Device.mk 3]).CreateEmptyBuffer okDriver 1 (-1)).result =
      some (some { clMem := 7, size := -1 }, none) := by
  constructor
  · rw [Context.CreateEmptyBuffer, CreateBufferUnsafe_calls]
    have h1 : cl_bitfield 1 = 1 := by unfold cl_bitfield; norm_num
    have h2 : size_t (-1) = 18446744073709551615 := by unfold size_t; norm_num; rfl
    rw [h1, h2]
  · rfl

/-! ## Factories and null handles -/

/-- The tail shared by the factories that test the handle: status test, null
test, wrapper.  A nil error comes with a wrapper around a non-null handle, and a
success status with a null handle yields `ErrUnknown` and no wrapper. -/
theorem checked_tail {α : Type} (r : Response) (calls : List DriverCall) (wrap : Handle → α)
    (handleOf : α → Handle) (hw : ∀ h, handleOf (wrap h) = h) :
    let run : Run (Option α × Option Error) :=
      if r.status ≠ CL_SUCCESS then ⟨calls, some (none, toError r.status)⟩
      else if r.handle = 0 then ⟨calls, some (none, some Error.ErrUnknown)⟩
      else ⟨calls, some (some (wrap r.handle), none)⟩
    (∀ v, run.result = some (v, none) → ∃ x : α, v = some x ∧ handleOf x ≠ 0) ∧
    (r.status = CL_SUCCESS → r.handle = 0 →
      run.result = some (none, some Error.ErrUnknown)) := by
  intro run
  refine ⟨fun v hv => ?_, fun hs hh => ?_⟩
  · by_cases h1 : r.status = CL_SUCCESS
    · by_cases h2 : r.handle = 0
      · simp [run, h1, h2] at hv
      · simp only [run, h1, h2, ne_eq, not_true_eq_false, if_false, Option.some.injEq,
          Prod.mk.injEq, and_true] at hv
        exact ⟨wrap r.handle, hv.symm, by rw [hw]; exact h2⟩
    · simp [run, h1, toError] at hv
  · simp [run, hs, hh]

/-- The factories that test the handle: command queue, buffer (and its
wrappers), GL render buffer, GL texture and program.  A nil error comes with a
wrapper around a non-null handle, and a success status with a null handle
yields `ErrUnknown` and no wrapper. -/
theorem checked_factories_null_handle (drv : Driver) (ctx : Context) :
    (∀ device properties,
      let run := ctx.CreateCommandQueue drv device properties
      (∀ v, run.result = some (v, none) → ∃ q : CommandQueue, v = some q ∧ q.clQueue ≠ 0) ∧
      ((drv (DriverCall.clCreateCommandQueue ctx.clContext device.id
          (cl_bitfield properties))).status = CL_SUCCESS →
        (drv (DriverCall.clCreateCommandQueue ctx.clContext device.id
          (cl_bitfield properties))).handle = 0 →
        run.result = some (none, some Error.ErrUnknown))) ∧
    (∀ flags size dataPtr,
      let run := ctx.CreateBufferUnsafe drv flags size dataPtr
      (∀ v, run.result = some (v, none) → ∃ m : MemObject, v = some m ∧ m.clMem ≠ 0) ∧
      ((drv (DriverCall.clCreateBuffer ctx.clContext (cl_bitfield flags) (size_t size)
          dataPtr)).status = CL_SUCCESS →
        (drv (DriverCall.clCreateBuffer ctx.clContext (cl_bitfield flags) (size_t size)
          dataPtr)).handle = 0 →
        run.result = some (none, some Error.ErrUnknown))) ∧
    (∀ flags buffer size,
      let run := ctx.CreateBufferFromGLRenderBuffer drv flags buffer size
      (∀ v, run.result = some (v, none) → ∃ m : MemObject, v = some m ∧ m.clMem ≠ 0) ∧
      ((drv (DriverCall.clCreateFromGLRenderbuffer ctx.clContext (cl_bitfield flags)
          (buffer % 2 ^ 32))).status = CL_SUCCESS →
        (drv (DriverCall.clCreateFromGLRenderbuffer ctx.clContext (cl_bitfield flags)
          (buffer % 2 ^ 32))).handle = 0 →
        run.result = some (none, some Error.ErrUnknown))) ∧
    (∀ flags texture size,
      let run := ctx.CreateBufferFromGLTexture2D drv flags texture size
      (∀ v, run.result = some (v, none) → ∃ m : MemObject, v = some m ∧ m.clMem ≠ 0) ∧
      ((drv (DriverCall.clCreateFromGLTexture ctx.clContext (cl_bitfield flags)
          GL_TEXTURE_2D 0 (texture % 2 ^ 32))).status = CL_SUCCESS →
        (drv (DriverCall.clCreateFromGLTexture ctx.clContext (cl_bitfield flags)
          GL_TEXTURE_2D 0 (texture % 2 ^ 32))).handle = 0 →
        run.result = some (none, some Error.ErrUnknown))) ∧
    (∀ sources,
      let run := ctx.CreateProgramWithSource drv sources
      (∀ v, run.result = some (v, none) → ∃ pr : Program, v = some pr ∧ pr.clProgram ≠ 0) ∧
      (sources ≠ [] →
        (drv (DriverCall.clCreateProgramWithSource ctx.clContext (cl_uint sources.length)
          sources)).status = CL_SUCCESS →
        (drv (DriverCall.clCreateProgramWithSource ctx.clContext (cl_uint sources.length)
          sources)).handle = 0 →
        run.result = some (none, some Error.ErrUnknown))) := by
  refine ⟨fun device properties => ?_, fun flags size dataPtr => ?_,
    fun flags buffer size => ?_, fun flags texture size => ?_, fun sources => ?_⟩
  · exact checked_tail _ _ (fun h => CommandQueue.mk h device) CommandQueue.clQueue
      (fun _ => rfl)
  · exact checked_tail _ _ (fun h => newMemObject h size) MemObject.clMem (fun _ => rfl)
  · exact checked_tail _ _ (fun h => newMemObject h size) MemObject.clMem (fun _ => rfl)
  · exact checked_tail _ _ (fun h => newMemObject h size) MemObject.clMem (fun _ => rfl)
  · cases sources with
    | nil => simp [Context.CreateProgramWithSource]
    | cons x xs =>
      have h := checked_tail
        (drv (DriverCall.clCreateProgramWithSource ctx.clContext (cl_uint (x :: xs).length)
          (x :: xs)))
        [DriverCall.clCreateProgramWithSource ctx.clContext (cl_uint (x :: xs).length)
          (x :: xs)]
        (fun h => Program.mk h ctx.devices) Program.clProgram (fun _ => rfl)
      exact ⟨h.1, fun _ => h.2⟩

/-- C4, the code at the failing input: on a driver that reports success with a
null handle, `CreateUserEvent` returns a nil error and an Event wrapping the
null handle, where the sibling factory `CreateBufferUnsafe` returns
`ErrUnknown` and no wrapper. -/
theorem CreateUserEvent_wraps_null_handle :
    ((Context.mk 1 [Device.mk 3]).CreateUserEvent nullHandleDriver).result =
      some (some { clEvent := 0 }, none) ∧
    ((Context.mk 1 [Device.mk 3]).CreateBufferUnsafe nullHandleDriver 1 16 HostPtr.null).result =
      some (none, some Error.ErrUnknown) := by
  constructor <;> rfl

/-! ## Supported image formats -/

/-- The array handed to the driver always has `maxImageFormats` entries. -/
theorem formatsArray_length (written : List (Nat × Nat)) :
    (formatsArray written).length = maxImageFormats := by
  unfold formatsArray
  rw [List.length_append, List.length_replicate, List.length_take]
  omega

/-- The native call issued by `GetSupportedImageFormats`: the query, with room
for `maxImageFormats` entries. -/
theorem GetSupportedImageFormats_calls (drv : Driver) (ctx : Context) (flags imageType : Int) :
    (ctx.GetSupportedImageFormats drv flags imageType).calls =
      [DriverCall.clGetSupportedImageFormats ctx.clContext (cl_bitfield flags)
        (cl_uint imageType) maxImageFormats] := by
  unfold Context.GetSupportedImageFormats
  simp only
  split_ifs <;> rfl

/-- On success with a count of at most 256, `GetSupportedImageFormats` returns
that many leading entries of the array, in order. -/
theorem GetSupportedImageFormats_within_cap (drv : Driver) (ctx : Context)
    (flags imageType : Int)
    (hs : (drv (DriverCall.clGetSupportedImageFormats ctx.clContext (cl_bitfield flags)
      (cl_uint imageType) maxImageFormats)).status = CL_SUCCESS)
    (hn : (drv (DriverCall.clGetSupportedImageFormats ctx.clContext (cl_bitfield flags)
      (cl_uint imageType) maxImageFormats)).numFormats ≤ maxImageFormats) :
    (ctx.GetSupportedImageFormats drv flags imageType).result =
      let r := drv (DriverCall.clGetSupportedImageFormats ctx.clContext (cl_bitfield flags)
        (cl_uint imageType) maxImageFormats)
      some (some (((formatsArray r.formats).take r.numFormats).map fun f =>
        { ChannelOrder := f.1, ChannelDataType := f.2 }), none) := by
  have hmod : (drv (DriverCall.clGetSupportedImageFormats ctx.clContext (cl_bitfield flags)
      (cl_uint imageType) maxImageFormats)).numFormats % 2 ^ 32 =
      (drv (DriverCall.clGetSupportedImageFormats ctx.clContext (cl_bitfield flags)
      (cl_uint imageType) maxImageFormats)).numFormats := by
    apply Nat.mod_eq_of_lt
    have : maxImageFormats = 256 := rfl
    omega
  simp only [Context.GetSupportedImageFormats, hs, hmod, formatsArray_length, hn, ne_eq,
    not_true_eq_false, if_false, if_true]

/-- On success with a count above 256 (and below `2^32`), the slice expression
`formats[:nFormats]` panics: `GetSupportedImageFormats` does not return. -/
theorem GetSupportedImageFormats_above_cap (drv : Driver) (ctx : Context)
    (flags imageType : Int)
    (hs : (drv (DriverCall.clGetSupportedImageFormats ctx.clContext (cl_bitfield flags)
      (cl_uint imageType) maxImageFormats)).status = CL_SUCCESS)
    (hn : maxImageFormats < (drv (DriverCall.clGetSupportedImageFormats ctx.clContext
      (cl_bitfield flags) (cl_uint imageType) maxImageFormats)).numFormats)
    (hn2 : (drv (DriverCall.clGetSupportedImageFormats ctx.clContext
      (cl_bitfield flags) (cl_uint imageType) maxImageFormats)).numFormats < 2 ^ 32) :
    (ctx.GetSupportedImageFormats drv flags imageType).result = none := by
  have hmod := Nat.mod_eq_of_lt hn2
  simp only [Context.GetSupportedImageFormats, hs, hmod, formatsArray_length, ne_eq,
    not_true_eq_false, if_false, Nat.not_le.mpr hn]

/-- C5, the code at the failing input: when the driver reports success and a
count of 257 formats, `GetSupportedImageFormats` issues the query with room
for 256 entries and then panics instead of returning the first 256; with a
count of 2 it returns the two formats in the driver's order. -/
theorem GetSupportedImageFormats_panics_above_cap :
    ((Context.mk 1 [Device.mk 3]).GetSupportedImageFormats manyFormatsDriver 1 0x10F1).calls =
      [DriverCall.clGetSupportedImageFormats 1 1 0x10F1 256] ∧
    ((Context.mk 1 [Device.mk 3]).GetSupportedImageFormats manyFormatsDriver 1 0x10F1).result =
      none ∧
    ((Context.mk 1 [Device.mk 3]).GetSupportedImageFormats twoFormatsDriver 1 0x10F1).result =
      some (some [{ ChannelOrder := 0x10B5, ChannelDataType := 0x10DE },
        { ChannelOrder := 0x10B6, ChannelDataType := 0x10DA }], none) := by
  refine ⟨?_, ?_, ?_⟩
  · rw [GetSupportedImageFormats_calls]
    have h1 : cl_bitfield 1 = 1 := by unfold cl_bitfield; norm_num
    have h2 : cl_uint 0x10F1 = 0x10F1 := by unfold cl_uint; norm_num; rfl
    rw [h1, h2]
    rfl
  · exact GetSupportedImageFormats_above_cap manyFormatsDriver _ 1 0x10F1 rfl (by decide)
      (by decide)
  · rw [GetSupportedImageFormats_within_cap twoFormatsDriver _ 1 0x10F1 rfl (by decide)]
    rfl

/-! ## Flush and Finish -/

/-- C6, the code on every queue: `Flush` issues the driver's blocking
wait-for-completion request `clFinish`, the very call `Finish` issues, and not
the dispatch request `clFlush`. -/
theorem Flush_issues_clFinish (drv : Driver) (q : CommandQueue) :
    (q.Flush drv).calls = [DriverCall.clFinish q.clQueue] ∧
    (q.Flush drv).calls ≠ [DriverCall.clFlush q.clQueue] ∧
    (q.Flush drv).calls = (q.Finish drv).calls ∧
    (q.Flush drv).result = (q.Finish drv).result := by
  refine ⟨rfl, ?_, rfl, rfl⟩
  simp [CommandQueue.Flush]

/-! ## Enqueue operations -/

/-- The modelled `toError` yields the nil error exactly on `CL_SUCCESS`. -/
theorem toError_eq_none_iff (code : Status) : toError code = none ↔ code = CL_SUCCESS := by
  unfold toError
  split_ifs with h <;> simp [h]

/-- The list block of `EnqueueNDRangeKernel` on a list that is nil or non-empty:
the null pointer for nil, the converted elements otherwise. -/
theorem workListPtr_of_ne (xs : Option (List Int)) (h : xs ≠ some []) :
    workListPtr xs = some (xs.map fun l => l.map size_t) := by
  cases xs with
  | none => rfl
  | some l =>
    cases l with
    | nil => exact absurd rfl h
    | cons x l => rfl

/-- The run of `EnqueueCopyBuffer`. -/
theorem EnqueueCopyBuffer_run (elp : EventListPtr) (drv : Driver) (q : CommandQueue)
    (srcBuffer dstBuffer : MemObject) (srcOffset dstOffset byteCount : Int)
    (el : Option (List Event)) (p : Option (List Handle)) (hp : elp el = some p) :
    q.EnqueueCopyBuffer elp drv srcBuffer dstBuffer srcOffset dstOffset byteCount el =
      let call := DriverCall.clEnqueueCopyBuffer q.clQueue srcBuffer.clMem dstBuffer.clMem
        (size_t srcOffset) (size_t dstOffset) (size_t byteCount) (cl_uint (sliceLen el)) p
      ⟨[call], some (some { clEvent := (drv call).event }, toError (drv call).status)⟩ := by
  simp only [CommandQueue.EnqueueCopyBuffer, hp, newEvent]

/-- The run of `EnqueueWriteBuffer`. -/
theorem EnqueueWriteBuffer_run (elp : EventListPtr) (drv : Driver) (q : CommandQueue)
    (buffer : MemObject) (blocking : Bool) (offset dataSize : Int) (dataPtr : HostPtr)
    (el : Option (List Event)) (p : Option (List Handle)) (hp : elp el = some p) :
    q.EnqueueWriteBuffer elp drv buffer blocking offset dataSize dataPtr el =
      let call := DriverCall.clEnqueueWriteBuffer q.clQueue buffer.clMem blocking
        (size_t offset) (size_t dataSize) dataPtr (cl_uint (sliceLen el)) p
      ⟨[call], some (some { clEvent := (drv call).event }, toError (drv call).status)⟩ := by
  simp only [CommandQueue.EnqueueWriteBuffer, hp, newEvent, clBool]

/-- The run of `EnqueueReadBuffer`. -/
theorem EnqueueReadBuffer_run (elp : EventListPtr) (drv : Driver) (q : CommandQueue)
    (buffer : MemObject) (blocking : Bool) (offset dataSize : Int) (dataPtr : HostPtr)
    (el : Option (List Event)) (p : Option (List Handle)) (hp : elp el = some p) :
    q.EnqueueReadBuffer elp drv buffer blocking offset dataSize dataPtr el =
      let call := DriverCall.clEnqueueReadBuffer q.clQueue buffer.clMem blocking
        (size_t offset) (size_t dataSize) dataPtr (cl_uint (sliceLen el)) p
      ⟨[call], some (some { clEvent := (drv call).event }, toError (drv call).status)⟩ := by
  simp only [CommandQueue.EnqueueReadBuffer, hp, newEvent, clBool]

/-- The run of `EnqueueWriteBufferFloat32` on a non-empty region. -/
theorem EnqueueWriteBufferFloat32_run (elp : EventListPtr) (drv : Driver) (q : CommandQueue)
    (buffer : MemObject) (blocking : Bool) (offset : Int) (data : List Nat)
    (el : Option (List Event)) (p : Option (List Handle)) (hp : elp el = some p)
    (hd : data ≠ []) :
    q.EnqueueWriteBufferFloat32 elp drv buffer blocking offset data el =
      let call := DriverCall.clEnqueueWriteBuffer q.clQueue buffer.clMem blocking
        (size_t offset) (size_t (wrapInt (4 * (data.length : Int)))) (HostPtr.float32s data)
        (cl_uint (sliceLen el)) p
      ⟨[call], some (some { clEvent := (drv call).event }, toError (drv call).status)⟩ := by
  obtain ⟨x, xs, rfl⟩ := List.exists_cons_of_ne_nil hd
  simp only [CommandQueue.EnqueueWriteBufferFloat32]
  exact EnqueueWriteBuffer_run elp drv q buffer blocking offset _ _ el p hp

/-- The run of `EnqueueReadBufferFloat32` on a non-empty region. -/
theorem EnqueueReadBufferFloat32_run (elp : EventListPtr) (drv : Driver) (q : CommandQueue)
    (buffer : MemObject) (blocking : Bool) (offset : Int) (data : List Nat)
    (el : Option (List Event)) (p : Option (List Handle)) (hp : elp el = some p)
    (hd : data ≠ []) :
    q.EnqueueReadBufferFloat32 elp drv buffer blocking offset data el =
      let call := DriverCall.clEnqueueReadBuffer q.clQueue buffer.clMem blocking
        (size_t offset) (size_t (wrapInt (4 * (data.length : Int)))) (HostPtr.float32s data)
        (cl_uint (sliceLen el)) p
      ⟨[call], some (some { clEvent := (drv call).event }, toError (drv call).status)⟩ := by
  obtain ⟨x, xs, rfl⟩ := List.exists_cons_of_ne_nil hd
  simp only [CommandQueue.EnqueueReadBufferFloat32]
  exact EnqueueReadBuffer_run elp drv q buffer blocking offset _ _ el p hp

/-- The run of `EnqueueNDRangeKernel` when no present list is empty: the three
lists are forwarded whatever their lengths. -/
theorem EnqueueNDRangeKernel_run (elp : EventListPtr) (drv : Driver) (q : CommandQueue)
    (kernel : Kernel) (globalWorkOffset globalWorkSize localWorkSize : Option (List Int))
    (el : Option (List Event)) (p : Option (List Handle)) (hp : elp el = some p)
    (ho : globalWorkOffset ≠ some []) (hg : globalWorkSize ≠ some [])
    (hl : localWorkSize ≠ some []) :
    q.EnqueueNDRangeKernel elp drv kernel globalWorkOffset globalWorkSize localWorkSize el =
      let call := DriverCall.clEnqueueNDRangeKernel q.clQueue kernel.clKernel
        (cl_uint (sliceLen globalWorkSize))
        (globalWorkOffset.map fun l => l.map size_t)
        (globalWorkSize.map fun l => l.map size_t)
        (localWorkSize.map fun l => l.map size_t) (cl_uint (sliceLen el)) p
      ⟨[call], some (some { clEvent := (drv call).event }, toError (drv call).status)⟩ := by
  simp only [CommandQueue.EnqueueNDRangeKernel, workListPtr_of_ne _ ho, workListPtr_of_ne _ hg,
    workListPtr_of_ne _ hl, hp, newEvent]

/-- The run of `EnqueueReadImage` on a non-empty region. -/
theorem EnqueueReadImage_run (elp : EventListPtr) (drv : Driver) (q : CommandQueue)
    (image : MemObject) (blocking : Bool) (origin region : Int × Int × Int)
    (rowPitch slicePitch : Int) (data : List Nat)
    (el : Option (List Event)) (p : Option (List Handle)) (hp : elp el = some p)
    (hd : data ≠ []) :
    q.EnqueueReadImage elp drv image blocking origin region rowPitch slicePitch data el =
      let call := DriverCall.clEnqueueReadImage q.clQueue image.clMem blocking
        (sizeT3 origin) (sizeT3 region) (size_t rowPitch) (size_t slicePitch)
        (HostPtr.bytes data) (cl_uint (sliceLen el)) p
      ⟨[call], some (some { clEvent := (drv call).event }, toError (drv call).status)⟩ := by
  obtain ⟨x, xs, rfl⟩ := List.exists_cons_of_ne_nil hd
  simp only [CommandQueue.EnqueueReadImage, hp, newEvent, clBool]

/-- The run of `EnqueueWriteImage` on a non-empty region. -/
theorem EnqueueWriteImage_run (elp : EventListPtr) (drv : Driver) (q : CommandQueue)
    (image : MemObject) (blocking : Bool) (origin region : Int × Int × Int)
    (rowPitch slicePitch : Int) (data : List Nat)
    (el : Option (List Event)) (p : Option (List Handle)) (hp : elp el = some p)
    (hd : data ≠ []) :
    q.EnqueueWriteImage elp drv image blocking origin region rowPitch slicePitch data el =
      let call := DriverCall.clEnqueueWriteImage q.clQueue image.clMem blocking
        (sizeT3 origin) (sizeT3 region) (size_t rowPitch) (size_t slicePitch)
        (HostPtr.bytes data) (cl_uint (sliceLen el)) p
      ⟨[call], some (some { clEvent := (drv call).event }, toError (drv call).status)⟩ := by
  obtain ⟨x, xs, rfl⟩ := List.exists_cons_of_ne_nil hd
  simp only [CommandQueue.EnqueueWriteImage, hp, newEvent, clBool]

/-- The run of `EnqueueTask`. -/
theorem EnqueueTask_run (elp : EventListPtr) (drv : Driver) (q : CommandQueue)
    (kernel : Kernel) (el : Option (List Event)) (p : Option (List Handle))
    (hp : elp el = some p) :
    q.EnqueueTask elp drv kernel el =
      let call := DriverCall.clEnqueueTask q.clQueue kernel.clKernel (cl_uint (sliceLen el)) p
      ⟨[call], some (some { clEvent := (drv call).event }, toError (drv call).status)⟩ := by
  simp only [CommandQueue.EnqueueTask, hp, newEvent]

/-- The run of `EnqueueUnmapMemObject`: the only listed operation that returns a
nil Event on a non-success status. -/
theorem EnqueueUnmapMemObject_run (elp : EventListPtr) (drv : Driver) (q : CommandQueue)
    (buffer : MemObject) (mappedObj : MappedMemObject)
    (el : Option (List Event)) (p : Option (List Handle)) (hp : elp el = some p) :
    q.EnqueueUnmapMemObject elp drv buffer mappedObj el =
      let call := DriverCall.clEnqueueUnmapMemObject q.clQueue buffer.clMem mappedObj.ptr
        (cl_uint (sliceLen el)) p
      ⟨[call], some (if (drv call).status ≠ CL_SUCCESS then (none, toError (drv call).status)
        else (some { clEvent := (drv call).event }, none))⟩ := by
  simp only [CommandQueue.EnqueueUnmapMemObject, hp, newEvent]
  split_ifs <;> rfl

/-- C3, as amended: whenever the dependency list is converted without a panic,
and for whatever the driver answers, `EnqueueCopyBuffer`, `EnqueueWriteBuffer`,
`EnqueueReadBuffer`, their Float32 variants (on a non-empty region),
`EnqueueNDRangeKernel` (no present list empty), `EnqueueTask`,
`EnqueueReadImage` and `EnqueueWriteImage` (on a non-empty region) issue one
driver call and return a non-nil Event wrapping the handle the driver left in
the `event` out-parameter together with the error derived from the status,
which is nil exactly on `CL_SUCCESS`: on a non-success status the non-nil Event
is returned alongside the error.  Only `EnqueueUnmapMemObject` returns a nil
Event with the error on a non-success status. -/
theorem enqueue_returns_event_with_error (elp : EventListPtr) (drv : Driver)
    (q : CommandQueue) (el : Option (List Event)) (p : Option (List Handle))
    (hp : elp el = some p) :
    (∀ src dst srcOffset dstOffset byteCount, ∃ call,
      (q.EnqueueCopyBuffer elp drv src dst srcOffset dstOffset byteCount el).calls = [call] ∧
      (q.EnqueueCopyBuffer elp drv src dst srcOffset dstOffset byteCount el).result =
        some (some { clEvent := (drv call).event }, toError (drv call).status)) ∧
    (∀ buffer blocking offset dataSize dataPtr, ∃ call,
      (q.EnqueueWriteBuffer elp drv buffer blocking offset dataSize dataPtr el).calls = [call] ∧
      (q.EnqueueWriteBuffer elp drv buffer blocking offset dataSize dataPtr el).result =
        some (some { clEvent := (drv call).event }, toError (drv call).status)) ∧
    (∀ buffer blocking offset dataSize dataPtr, ∃ call,
      (q.EnqueueReadBuffer elp drv buffer blocking offset dataSize dataPtr el).calls = [call] ∧
      (q.EnqueueReadBuffer elp drv buffer blocking offset dataSize dataPtr el).result =
        some (some { clEvent := (drv call).event }, toError (drv call).status)) ∧
    (∀ buffer blocking offset data, data ≠ [] → ∃ call,
      (q.EnqueueWriteBufferFloat32 elp drv buffer blocking offset data el).calls = [call] ∧
      (q.EnqueueWriteBufferFloat32 elp drv buffer blocking offset data el).result =
        some (some { clEvent := (drv call).event }, toError (drv call).status)) ∧
    (∀ buffer blocking offset data, data ≠ [] → ∃ call,
      (q.EnqueueReadBufferFloat32 elp drv buffer blocking offset data el).calls = [call] ∧
      (q.EnqueueReadBufferFloat32 elp drv buffer blocking offset data el).result =
        some (some { clEvent := (drv call).event }, toError (drv call).status)) ∧
    (∀ kernel gwo gws lws, gwo ≠ some [] → gws ≠ some [] → lws ≠ some [] → ∃ call,
      (q.EnqueueNDRangeKernel elp drv kernel gwo gws lws el).calls = [call] ∧
      (q.EnqueueNDRangeKernel elp drv kernel gwo gws lws el).result =
        some (some { clEvent := (drv call).event }, toError (drv call).status)) ∧
    (∀ kernel, ∃ call,
      (q.EnqueueTask elp drv kernel el).calls = [call] ∧
      (q.EnqueueTask elp drv kernel el).result =
        some (some { clEvent := (drv call).event }, toError (drv call).status)) ∧
    (∀ image blocking origin region rowPitch slicePitch data, data ≠ [] → ∃ call,
      (q.EnqueueReadImage elp drv image blocking origin region rowPitch slicePitch data
        el).calls = [call] ∧
      (q.EnqueueReadImage elp drv image blocking origin region rowPitch slicePitch data
        el).result =
        some (some { clEvent := (drv call).event }, toError (drv call).status)) ∧
    (∀ image blocking origin region rowPitch slicePitch data, data ≠ [] → ∃ call,
      (q.EnqueueWriteImage elp drv image blocking origin region rowPitch slicePitch data
        el).calls = [call] ∧
      (q.EnqueueWriteImage elp drv image blocking origin region rowPitch slicePitch data
        el).result =
        some (some { clEvent := (drv call).event }, toError (drv call).status)) ∧
    (∀ buffer mappedObj, ∃ call,
      (q.EnqueueUnmapMemObject elp drv buffer mappedObj el).calls = [call] ∧
      ((drv call).status ≠ CL_SUCCESS →
        (q.EnqueueUnmapMemObject elp drv buffer mappedObj el).result =
          some (none, toError (drv call).status)) ∧
      ((drv call).status = CL_SUCCESS →
        (q.EnqueueUnmapMemObject elp drv buffer mappedObj el).result =
          some (some { clEvent := (drv call).event }, none))) ∧
    (∀ code : Status, toError code = none ↔ code = CL_SUCCESS) := by
  refine ⟨?_, ?_, ?_, ?_, ?_, ?_, ?_, ?_, ?_, ?_, toError_eq_none_iff⟩
  · intro src dst so d bc
    have h := EnqueueCopyBuffer_run elp drv q src dst so d bc el p hp
    exact ⟨_, by rw [h], by rw [h]⟩
  · intro buffer blocking offset dataSize dataPtr
    have h := EnqueueWriteBuffer_run elp drv q buffer blocking offset dataSize dataPtr el p hp
    exact ⟨_, by rw [h], by rw [h]⟩
  · intro buffer blocking offset dataSize dataPtr
    have h := EnqueueReadBuffer_run elp drv q buffer blocking offset dataSize dataPtr el p hp
    exact ⟨_, by rw [h], by rw [h]⟩
  · intro buffer blocking offset data hd
    have h := EnqueueWriteBufferFloat32_run elp drv q buffer blocking offset data el p hp hd
    exact ⟨_, by rw [h], by rw [h]⟩
  · intro buffer blocking offset data hd
    have h := EnqueueReadBufferFloat32_run elp drv q buffer blocking offset data el p hp hd
    exact ⟨_, by rw [h], by rw [h]⟩
  · intro kernel gwo gws lws ho hg hl
    have h := EnqueueNDRangeKernel_run elp drv q kernel gwo gws lws el p hp ho hg hl
    exact ⟨_, by rw [h], by rw [h]⟩
  · intro kernel
    have h := EnqueueTask_run elp drv q kernel el p hp
    exact ⟨_, by rw [h], by rw [h]⟩
  · intro image blocking origin region rowPitch slicePitch data hd
    have h := EnqueueReadImage_run elp drv q image blocking origin region rowPitch slicePitch
      data el p hp hd
    exact ⟨_, by rw [h], by rw [h]⟩
  · intro image blocking origin region rowPitch slicePitch data hd
    have h := EnqueueWriteImage_run elp drv q image blocking origin region rowPitch slicePitch
      data el p hp hd
    exact ⟨_, by rw [h], by rw [h]⟩
  · intro buffer mappedObj
    have h := EnqueueUnmapMemObject_run elp drv q buffer mappedObj el p hp
    refine ⟨_, by rw [h], fun hs => ?_, fun hs => ?_⟩
    · rw [h]; simp only [hs, ne_eq, not_false_eq_true, if_true]
    · rw [h]; simp only [hs, ne_eq, not_true_eq_false, if_false]

/-- Witness of the amended C3: `EnqueueTask` without dependencies on a driver
that rejects the call. -/
theorem enqueue_returns_event_with_error_witness :
    eventHandles none = some none ∧
    ∃ call,
      ((CommandQueue.mk 5 (Device.mk 3)).EnqueueTask eventHandles failDriver (Kernel.mk 6)
        none).calls = [call] ∧
      ((CommandQueue.mk 5 (Device.mk 3)).EnqueueTask eventHandles failDriver (Kernel.mk 6)
        none).result =
        some (some { clEvent := (failDriver call).event }, toError (failDriver call).status) :=
  ⟨rfl, (enqueue_returns_event_with_error eventHandles failDriver
    (CommandQueue.mk 5 (Device.mk 3)) none none rfl).2.2.2.2.2.2.1 (Kernel.mk 6)⟩

/-- Counterexample to C3 as stated: on a driver that rejects the call with the
status `-5` and writes no event, `EnqueueCopyBuffer` returns the error together
with a non-nil Event (a wrapper around the null handle), not a nil Event; and
when the rejecting driver does write an event handle, the Event returned with
the error is the very Event returned on success with that handle. -/
theorem EnqueueCopyBuffer_event_on_failure :
    ((CommandQueue.mk 5 (Device.mk 3)).EnqueueCopyBuffer eventHandles failDriver
      (MemObject.mk 7 16) (MemObject.mk 8 16) 0 0 16 none).result =
      some (some { clEvent := 0 }, some (Error.ofStatus (-5))) ∧
    ((CommandQueue.mk 5 (Device.mk 3)).EnqueueCopyBuffer eventHandles failDriverWithEvent
      (MemObject.mk 7 16) (MemObject.mk 8 16) 0 0 16 none).result =
      some (some { clEvent := 9 }, some (Error.ofStatus (-5))) ∧
    ((CommandQueue.mk 5 (Device.mk 3)).EnqueueCopyBuffer eventHandles okDriver
      (MemObject.mk 7 16) (MemObject.mk 8 16) 0 0 16 none).result =
      some (some { clEvent := 9 }, none) := by
  rw [EnqueueCopyBuffer_run eventHandles failDriver _ _ _ 0 0 16 none none rfl,
    EnqueueCopyBuffer_run eventHandles failDriverWithEvent _ _ _ 0 0 16 none none rfl,
    EnqueueCopyBuffer_run eventHandles okDriver _ _ _ 0 0 16 none none rfl]
  exact ⟨rfl, rfl, rfl⟩

/-! ## EnqueueNDRangeKernel -/

/-- C7, as amended: `EnqueueNDRangeKernel` does not compare the lengths of its
lists.  Whenever no present list is empty and the dependency list is converted
without a panic, whatever the three lengths, it forwards the lists to the
driver and returns the Event wrapper with the error derived from the driver's
status: the call fails exactly when the driver reports a non-success status. -/
theorem EnqueueNDRangeKernel_error_is_driver_status (elp : EventListPtr) (drv : Driver)
    (q : CommandQueue) (kernel : Kernel)
    (globalWorkOffset globalWorkSize localWorkSize : Option (List Int))
    (el : Option (List Event)) (p : Option (List Handle)) (hp : elp el = some p)
    (ho : globalWorkOffset ≠ some []) (hg : globalWorkSize ≠ some [])
    (hl : localWorkSize ≠ some []) :
    let call := DriverCall.clEnqueueNDRangeKernel q.clQueue kernel.clKernel
      (cl_uint (sliceLen globalWorkSize))
      (globalWorkOffset.map fun l => l.map size_t)
      (globalWorkSize.map fun l => l.map size_t)
      (localWorkSize.map fun l => l.map size_t) (cl_uint (sliceLen el)) p
    let run := q.EnqueueNDRangeKernel elp drv kernel globalWorkOffset globalWorkSize
      localWorkSize el
    run.calls = [call] ∧
    run.result = some (some { clEvent := (drv call).event }, toError (drv call).status) ∧
    (toError (drv call).status = none ↔ (drv call).status = CL_SUCCESS) := by
  intro call run
  have h := EnqueueNDRangeKernel_run elp drv q kernel globalWorkOffset globalWorkSize
    localWorkSize el p hp ho hg hl
  refine ⟨?_, ?_, toError_eq_none_iff _⟩
  · show (q.EnqueueNDRangeKernel elp drv kernel globalWorkOffset globalWorkSize
      localWorkSize el).calls = _
    rw [h]
  · show (q.EnqueueNDRangeKernel elp drv kernel globalWorkOffset globalWorkSize
      localWorkSize el).result = _
    rw [h]

/-- Witness of the amended C7: a global work size of length 2 with a local work
size of length 3, on a driver that rejects the call. -/
theorem EnqueueNDRangeKernel_error_is_driver_status_witness :
    eventHandles none = some none ∧
    ((CommandQueue.mk 5 (Device.mk 3)).EnqueueNDRangeKernel eventHandles failDriver
      (Kernel.mk 6) none (some [4, 4]) (some [2, 2, 1]) none).result =
      some (some { clEvent := 0 }, some (Error.ofStatus (-5))) :=
  ⟨rfl, (EnqueueNDRangeKernel_error_is_driver_status eventHandles failDriver
    (CommandQueue.mk 5 (Device.mk 3)) (Kernel.mk 6) none (some [4, 4]) (some [2, 2, 1]) none
    none rfl (by decide) (by decide) (by decide)).2.1⟩

/-- Counterexample to C7 as stated: with a global work size of length 2 and a
local work size of length 3, on a driver that accepts the call, the three-entry
list is handed to the driver with the work dimension 2 and the call returns a
nil error and an Event. -/
theorem EnqueueNDRangeKernel_arity_mismatch_succeeds :
    ((CommandQueue.mk 5 (Device.mk 3)).EnqueueNDRangeKernel eventHandles okDriver
      (Kernel.mk 6) none (some [4, 4]) (some [2, 2, 1]) none).calls =
      [DriverCall.clEnqueueNDRangeKernel 5 6 2 none (some [4, 4]) (some [2, 2, 1]) 0 none] ∧
    ((CommandQueue.mk 5 (Device.mk 3)).EnqueueNDRangeKernel eventHandles okDriver
      (Kernel.mk 6) none (some [4, 4]) (some [2, 2, 1]) none).result =
      some (some { clEvent := 9 }, none) := by
  rw [EnqueueNDRangeKernel_run eventHandles okDriver _ _ none (some [4, 4]) (some [2, 2, 1])
    none none rfl (by decide) (by decide) (by decide)]
  constructor
  · decide
  · rfl

/-- `C.cl_uint` on a length below `2^32`. -/
theorem cl_uint_natCast (n : Nat) (h : n < 2 ^ 32) : cl_uint (n : Int) = n := by
  unfold cl_uint
  have h0 : (n : Int) % 2 ^ 32 = (n : Int) :=
    Int.emod_eq_of_lt (Int.natCast_nonneg n) (by exact_mod_cast h)
  rw [h0]
  exact Int.toNat_natCast n

/-- C8, as amended: for every call of `EnqueueNDRangeKernel` with a non-empty
globalWorkSize list of fewer than `2^32` entries in which no present list is
empty (and whose dependency list is converted without a panic), the work
dimension handed to the driver is `len(globalWorkSize)`, each present list is
handed over element for element in order, converted to `size_t`, and each nil
list is handed over as the null pointer. -/
theorem EnqueueNDRangeKernel_driver_arguments (elp : EventListPtr) (drv : Driver)
    (q : CommandQueue) (kernel : Kernel) (globalWorkOffset localWorkSize : Option (List Int))
    (globalWorkSize : List Int) (el : Option (List Event)) (p : Option (List Handle))
    (hp : elp el = some p) (hg : globalWorkSize ≠ []) (hlen : globalWorkSize.length < 2 ^ 32)
    (ho : globalWorkOffset ≠ some []) (hl : localWorkSize ≠ some []) :
    (q.EnqueueNDRangeKernel elp drv kernel globalWorkOffset (some globalWorkSize)
      localWorkSize el).calls =
      [DriverCall.clEnqueueNDRangeKernel q.clQueue kernel.clKernel globalWorkSize.length
        (globalWorkOffset.map fun l => l.map size_t)
        (some (globalWorkSize.map size_t))
        (localWorkSize.map fun l => l.map size_t) (cl_uint (sliceLen el)) p] := by
  have hg2 : some globalWorkSize ≠ some [] := fun h => hg (Option.some.inj h)
  rw [EnqueueNDRangeKernel_run elp drv q kernel globalWorkOffset (some globalWorkSize)
    localWorkSize el p hp ho hg2 hl]
  simp only [sliceLen, Option.getD_some, Option.map_some', cl_uint_natCast _ hlen]

/-- Witness of the amended C8: a two-dimensional range with an offset and no
local work size. -/
theorem EnqueueNDRangeKernel_driver_arguments_witness :
    eventHandles none = some none ∧
    ((CommandQueue.mk 5 (Device.mk 3)).EnqueueNDRangeKernel eventHandles okDriver
      (Kernel.mk 6) (some [1, 0]) (some [4, 8]) none none).calls =
      [DriverCall.clEnqueueNDRangeKernel 5 6 2 (some [1, 0]) (some [4, 8]) none 0 none] :=
  ⟨rfl, EnqueueNDRangeKernel_driver_arguments eventHandles okDriver
    (CommandQueue.mk 5 (Device.mk 3)) (Kernel.mk 6) (some [1, 0]) none [4, 8] none none rfl
    (by decide) (by decide) (by decide) (by decide)⟩

/-- Counterexample to C8 as stated: with the non-empty globalWorkSize `[4]` and
a present but empty globalWorkOffset, `&globalWorkOffsetList[0]` panics and
nothing is handed to the driver; and with a globalWorkSize of `2^32` entries
the work dimension handed to the driver is `0`. -/
theorem EnqueueNDRangeKernel_empty_offset_panics :
    (((CommandQueue.mk 5 (Device.mk 3)).EnqueueNDRangeKernel eventHandles okDriver
      (Kernel.mk 6) (some []) (some [4]) none none).calls = [] ∧
    ((CommandQueue.mk 5 (Device.mk 3)).EnqueueNDRangeKernel eventHandles okDriver
      (Kernel.mk 6) (some []) (some [4]) none none).result = none) ∧
    (List.replicate (4294967295 + 1) (1 : Int)).length = 4294967296 ∧
    ((CommandQueue.mk 5 (Device.mk 3)).EnqueueNDRangeKernel eventHandles okDriver
      (Kernel.mk 6) none (some (List.replicate (4294967295 + 1) 1)) none none).calls =
      [DriverCall.clEnqueueNDRangeKernel 5 6 0 none
        (some (List.replicate (4294967295 + 1) (size_t 1))) none 0 none] := by
  refine ⟨⟨rfl, rfl⟩, List.length_replicate _ _, ?_⟩
  have hne : (some (List.replicate (4294967295 + 1) (1 : Int))) ≠ some [] := by
    rw [List.replicate_succ]
    exact fun h => List.cons_ne_nil _ _ (Option.some.inj h)
  rw [EnqueueNDRangeKernel_run eventHandles okDriver _ _ none _ none none none rfl
    (by decide) hne (by decide)]
  simp only [sliceLen, Option.getD_some, Option.getD_none, Option.map_some', Option.map_none',
    List.length_replicate, List.map_replicate]
  have hc : cl_uint ((4294967295 + 1 : Nat) : Int) = 0 := by
    unfold cl_uint; norm_num
  have h0 : cl_uint (([] : List Event).length : Int) = 0 := by
    unfold cl_uint; norm_num
  rw [hc, h0]

end cl
